import Mathlib

/-!
Shallow embedding of the `typed-japanese` conjugation engine.

The repository encodes Japanese conjugation entirely at the TypeScript type
level: lexeme shapes are object types with string-literal fields, rule tables
are object types indexed by literal keys, and `ConjugateVerb` /
`ConjugateAdjective` are conditional types producing string-literal types
(`never` when a lookup misses).  We embed each type-level construct as a plain
Lean function on `String`: a key lookup that TypeScript resolves to a literal
becomes `some s`, and a branch that TypeScript resolves to `never` becomes
`none`.  Lexeme types whose fields are constrained to closed literal unions
become structures carrying the membership invariant.
-/

namespace TypedJapanese

/-- The nine legal Godan endings, from `GodanVerb["ending"]` in
`verb-types.d.ts`. -/
def godanEndings : List String :=
  ["う", "く", "ぐ", "す", "つ", "ぬ", "ぶ", "む", "る"]

/-- `GodanVerb`: a stem together with an ending drawn from the closed
nine-member union. -/
structure GodanVerb where
  stem : String
  ending : String
  ending_mem : ending ∈ godanEndings

/-- `IchidanVerb`: a stem; the ending is constrained to the literal る. -/
structure IchidanVerb where
  stem : String
  ending : String
  ending_ru : ending = "る"

/-- The three legal dictionary keys of `IrregularVerb`. -/
def irregularDictionaries : List String :=
  ["する", "来る", "くる"]

/-- `IrregularVerb`: identified purely by its dictionary form, drawn from the
closed three-member union. -/
structure IrregularVerb where
  dictionary : String
  dictionary_mem : dictionary ∈ irregularDictionaries

/-- `Verb = GodanVerb | IchidanVerb | IrregularVerb`. -/
inductive Verb where
  | godan : GodanVerb → Verb
  | ichidan : IchidanVerb → Verb
  | irregular : IrregularVerb → Verb

/-- The verb `ConjugationForm` union of `verb-types.d.ts` (twelve members). -/
def conjugationForms : List String :=
  ["辞書形", "ます形", "て形", "た形", "ない形", "可能形",
   "受身形", "使役形", "意向形", "命令形", "条件形", "仮定形"]

/-- `GodanConjugationMap`: for each of the nine endings, the fragment for each
of the eleven non-dictionary forms; `none` models a missing key (TypeScript
`never`).  Transcribed row by row from `verb-types.d.ts` lines 37-155. -/
def godanConjugationMap (e f : String) : Option String :=
  if e = "う" then
    if f = "ます形" then some "い"
    else if f = "て形" then some "って"
    else if f = "た形" then some "った"
    else if f = "ない形" then some "わ"
    else if f = "可能形" then some "え"
    else if f = "受身形" then some "わ"
    else if f = "使役形" then some "わ"
    else if f = "意向形" then some "お"
    else if f = "命令形" then some "え"
    else if f = "条件形" then some "え"
    else if f = "仮定形" then some "え"
    else none
  else if e = "く" then
    if f = "ます形" then some "き"
    else if f = "て形" then some "いて"
    else if f = "た形" then some "いた"
    else if f = "ない形" then some "か"
    else if f = "可能形" then some "け"
    else if f = "受身形" then some "か"
    else if f = "使役形" then some "か"
    else if f = "意向形" then some "こ"
    else if f = "命令形" then some "け"
    else if f = "条件形" then some "け"
    else if f = "仮定形" then some "け"
    else none
  else if e = "ぐ" then
    if f = "ます形" then some "ぎ"
    else if f = "て形" then some "いで"
    else if f = "た形" then some "いだ"
    else if f = "ない形" then some "が"
    else if f = "可能形" then some "げ"
    else if f = "受身形" then some "が"
    else if f = "使役形" then some "が"
    else if f = "意向形" then some "ご"
    else if f = "命令形" then some "げ"
    else if f = "条件形" then some "げ"
    else if f = "仮定形" then some "げ"
    else none
  else if e = "す" then
    if f = "ます形" then some "し"
    else if f = "て形" then some "して"
    else if f = "た形" then some "した"
    else if f = "ない形" then some "さ"
    else if f = "可能形" then some "せ"
    else if f = "受身形" then some "さ"
    else if f = "使役形" then some "さ"
    else if f = "意向形" then some "そ"
    else if f = "命令形" then some "せ"
    else if f = "条件形" then some "せ"
    else if f = "仮定形" then some "せ"
    else none
  else if e = "つ" then
    if f = "ます形" then some "ち"
    else if f = "て形" then some "って"
    else if f = "た形" then some "った"
    else if f = "ない形" then some "た"
    else if f = "可能形" then some "て"
    else if f = "受身形" then some "た"
    else if f = "使役形" then some "た"
    else if f = "意向形" then some "と"
    else if f = "命令形" then some "て"
    else if f = "条件形" then some "て"
    else if f = "仮定形" then some "て"
    else none
  else if e = "ぬ" then
    if f = "ます形" then some "に"
    else if f = "て形" then some "んで"
    else if f = "た形" then some "んだ"
    else if f = "ない形" then some "な"
    else if f = "可能形" then some "ね"
    else if f = "受身形" then some "な"
    else if f = "使役形" then some "な"
    else if f = "意向形" then some "の"
    else if f = "命令形" then some "ね"
    else if f = "条件形" then some "ね"
    else if f = "仮定形" then some "ね"
    else none
  else if e = "ぶ" then
    if f = "ます形" then some "び"
    else if f = "て形" then some "んで"
    else if f = "た形" then some "んだ"
    else if f = "ない形" then some "ば"
    else if f = "可能形" then some "べ"
    else if f = "受身形" then some "ば"
    else if f = "使役形" then some "ば"
    else if f = "意向形" then some "ぼ"
    else if f = "命令形" then some "べ"
    else if f = "条件形" then some "べ"
    else if f = "仮定形" then some "べ"
    else none
  else if e = "む" then
    if f = "ます形" then some "み"
    else if f = "て形" then some "んで"
    else if f = "た形" then some "んだ"
    else if f = "ない形" then some "ま"
    else if f = "可能形" then some "め"
    else if f = "受身形" then some "ま"
    else if f = "使役形" then some "ま"
    else if f = "意向形" then some "も"
    else if f = "命令形" then some "め"
    else if f = "条件形" then some "め"
    else if f = "仮定形" then some "め"
    else none
  else if e = "る" then
    if f = "ます形" then some "り"
    else if f = "て形" then some "って"
    else if f = "た形" then some "った"
    else if f = "ない形" then some "ら"
    else if f = "可能形" then some "れ"
    else if f = "受身形" then some "ら"
    else if f = "使役形" then some "ら"
    else if f = "意向形" then some "ろ"
    else if f = "命令形" then some "れ"
    else if f = "条件形" then some "れ"
    else if f = "仮定形" then some "れ"
    else none
  else none

/-- `IrregularConjugationMap`: the per-lexeme fixed surface strings,
transcribed from `verb-types.d.ts` lines 157-201. -/
def irregularConjugationMap (d f : String) : Option String :=
  if d = "する" then
    if f = "辞書形" then some "する"
    else if f = "ます形" then some "し"
    else if f = "て形" then some "して"
    else if f = "た形" then some "した"
    else if f = "ない形" then some "し"
    else if f = "可能形" then some "でき"
    else if f = "受身形" then some "され"
    else if f = "使役形" then some "させ"
    else if f = "意向形" then some "しよう"
    else if f = "命令形" then some "しろ"
    else if f = "条件形" then some "すれ"
    else if f = "仮定形" then some "すれ"
    else none
  else if d = "来る" then
    if f = "辞書形" then some "来る"
    else if f = "ます形" then some "来"
    else if f = "て形" then some "来て"
    else if f = "た形" then some "来た"
    else if f = "ない形" then some "来"
    else if f = "可能形" then some "来られ"
    else if f = "受身形" then some "来られ"
    else if f = "使役形" then some "来させ"
    else if f = "意向形" then some "来よう"
    else if f = "命令形" then some "来い"
    else if f = "条件形" then some "来れ"
    else if f = "仮定形" then some "来れ"
    else none
  else if d = "くる" then
    if f = "辞書形" then some "くる"
    else if f = "ます形" then some "き"
    else if f = "て形" then some "きて"
    else if f = "た形" then some "きた"
    else if f = "ない形" then some "こ"
    else if f = "可能形" then some "こられ"
    else if f = "受身形" then some "こられ"
    else if f = "使役形" then some "こさせ"
    else if f = "意向形" then some "こよう"
    else if f = "命令形" then some "こい"
    else if f = "条件形" then some "くれ"
    else if f = "仮定形" then some "くれ"
    else none
  else none

/-- `ConjugateVerb`, `verb-types.d.ts` lines 224-251.  The Godan branch
special-cases 辞書形 as `stem + ending` and otherwise prefixes the stem to the
`godanConjugationMap` fragment; the Ichidan branch is the literal conditional
chain of the source; the irregular branch is a direct per-lexeme lookup. -/
def conjugateVerb : Verb → String → Option String
  | .godan v, f =>
    if f = "辞書形" then some (v.stem ++ v.ending)
    else (godanConjugationMap v.ending f).map (fun frag => v.stem ++ frag)
  | .ichidan v, f =>
    if f = "辞書形" then some (v.stem ++ v.ending)
    else if f = "ます形" then some v.stem
    else if f = "て形" then some (v.stem ++ "て")
    else if f = "た形" then some (v.stem ++ "た")
    else if f = "ない形" then some v.stem
    else if f = "可能形" ∨ f = "受身形" ∨ f = "使役形" ∨ f = "仮定形" ∨ f = "条件形" then
      some (v.stem ++ "られ")
    else if f = "意向形" then some (v.stem ++ "よう")
    else if f = "命令形" then some (v.stem ++ "ろ")
    else none
  | .irregular v, f => irregularConjugationMap v.dictionary f

/-- `IAdjective`: a stem, the ending constrained to the literal い, and the
optional `irregular` flag (absent models `false`). -/
structure IAdjective where
  stem : String
  ending : String
  ending_i : ending = "い"
  irregular : Bool

/-- `NaAdjective`: only a stem. -/
structure NaAdjective where
  stem : String

/-- `Adjective = IAdjective | NaAdjective`. -/
inductive Adjective where
  | i : IAdjective → Adjective
  | na : NaAdjective → Adjective

/-- The declared `AdjectiveConjugationForm` union of `adjective-types.d.ts`
lines 17-21 (four members; て形 is deliberately not among them). -/
def adjectiveConjugationForms : List String :=
  ["基本形", "丁寧形", "過去形", "否定形"]

/-- `IAdjectiveConjugationMap["い"]` together with `GetIAdjectiveConjugation`:
the fragment for each form key present in the map, `none` otherwise. -/
def getIAdjectiveConjugation (f : String) : Option String :=
  if f = "基本形" then some "い"
  else if f = "丁寧形" then some "いです"
  else if f = "過去形" then some "かった"
  else if f = "否定形" then some "くない"
  else none

/-- `GetIrregularAdjectiveConjugation`: for stem い, first the
`IrregularAdjectiveMap["い"]` keys, then the fall-through to
`IAdjectiveConjugationMap["い"]`; `none` for any other stem. -/
def getIrregularAdjectiveConjugation (stem f : String) : Option String :=
  if stem = "い" then
    if f = "過去形" then some "よかった"
    else if f = "否定形" then some "よくない"
    else if f = "て形" then some "よくて"
    else if f = "丁寧形" then some "いいです"
    else getIAdjectiveConjugation f
  else none

/-- `ConjugateAdjective`, `adjective-types.d.ts` lines 62-85.  The irregular
i-adjective branch special-cases 基本形 as `stem + ending` and otherwise uses
the irregular lookup verbatim (no stem prefix); the regular i-adjective branch
prefixes the stem to the map fragment; the na-adjective branch is the literal
conditional chain of the source. -/
def conjugateAdjective : Adjective → String → Option String
  | .i a, f =>
    if a.irregular then
      if f = "基本形" then some (a.stem ++ a.ending)
      else getIrregularAdjectiveConjugation a.stem f
    else
      if f = "基本形" then some (a.stem ++ a.ending)
      else (getIAdjectiveConjugation f).map (fun frag => a.stem ++ frag)
  | .na a, f =>
    if f = "基本形" then some (a.stem ++ "な")
    else if f = "丁寧形" then some (a.stem ++ "です")
    else if f = "過去形" then some (a.stem ++ "でした")
    else if f = "否定形" then some (a.stem ++ "ではない")
    else if f = "て形" then some (a.stem ++ "で")
    else none

/-- `PhraseWithParticle<Phrase, P>`: plain concatenation of the
phrase and the particle (`phrase-types.d.ts` lines 66-69). -/
def phraseWithParticle (phrase p : String) : String :=
  phrase ++ p

/-- `ConnectedPhrases<P1, P2>`: the two phrases joined by the Japanese comma
(`phrase-types.d.ts` lines 86-89). -/
def connectedPhrases (p1 p2 : String) : String :=
  p1 ++ "、" ++ p2

/-- The lexeme する of the examples: an `IrregularVerb` with dictionary する. -/
def suruVerb : IrregularVerb :=
  ⟨"する", by decide⟩

/-- The lexeme 来る of the examples: an `IrregularVerb` with dictionary 来る. -/
def kuruKanjiVerb : IrregularVerb :=
  ⟨"来る", by decide⟩

/-- The all-kana lexeme くる: an `IrregularVerb` with dictionary くる. -/
def kuruKanaVerb : IrregularVerb :=
  ⟨"くる", by decide⟩

/-- The irregular adjective いい of the examples:
an `IAdjective` with stem い, ending い and the irregular flag set. -/
def iiAdjective : IAdjective :=
  ⟨"い", "い", rfl, true⟩

/-- Modelled from the spec: the construction-time validation entry point for
Godan verbs is not concrete code under `src/` (the repository rejects a bad
ending purely as a compile-time type error on `GodanVerb["ending"]`); the spec
names the corresponding runtime failure `InvalidLexemeError`, raised when a
required categorical field is outside its declared closed set. -/
inductive LexemeError where
  | invalidLexeme
deriving DecidableEq

/-- Modelled from the spec: the Godan constructor validates the ending against
the closed nine-member set and fails with `InvalidLexemeError` otherwise, so
conjugation is never reached with an out-of-domain ending. -/
def mkGodanVerb (stem ending : String) : Except LexemeError GodanVerb :=
  if h : ending ∈ godanEndings then .ok ⟨stem, ending, h⟩
  else .error .invalidLexeme

/-- Unfolds a membership in the nine-ending list into a disjunction of
equations, for case analysis. -/
lemma mem_godanEndings_cases {e : String} (he : e ∈ godanEndings) :
    e = "う" ∨ e = "く" ∨ e = "ぐ" ∨ e = "す" ∨ e = "つ" ∨
    e = "ぬ" ∨ e = "ぶ" ∨ e = "む" ∨ e = "る" := by
  simpa [godanEndings] using he

/-- Unfolds a membership in the twelve-form list into a disjunction of
equations, for case analysis. -/
lemma mem_conjugationForms_cases {f : String} (hf : f ∈ conjugationForms) :
    f = "辞書形" ∨ f = "ます形" ∨ f = "て形" ∨ f = "た形" ∨ f = "ない形" ∨
    f = "可能形" ∨ f = "受身形" ∨ f = "使役形" ∨ f = "意向形" ∨
    f = "命令形" ∨ f = "条件形" ∨ f = "仮定形" := by
  simpa [conjugationForms] using hf

/-- Unfolds a membership in the three-dictionary list into a disjunction of
equations, for case analysis. -/
lemma mem_irregularDictionaries_cases {d : String} (hd : d ∈ irregularDictionaries) :
    d = "する" ∨ d = "来る" ∨ d = "くる" := by
  simpa [irregularDictionaries] using hd

/-- Unfolds a membership in the four-adjective-form list into a disjunction of
equations, for case analysis. -/
lemma mem_adjectiveConjugationForms_cases {f : String}
    (hf : f ∈ adjectiveConjugationForms) :
    f = "基本形" ∨ f = "丁寧形" ∨ f = "過去形" ∨ f = "否定形" := by
  simpa [adjectiveConjugationForms] using hf

/-- C1: for every Godan verb, every non-dictionary form of the twelve-member
enumeration has a populated, non-empty fragment in `godanConjugationMap` at
the verb's ending, and conjugation returns exactly the stem concatenated with
that fragment. -/
theorem godan_conjugation_matches_table (v : GodanVerb) (f : String)
    (hf : f ∈ conjugationForms) (hne : f ≠ "辞書形") :
    ∃ frag, godanConjugationMap v.ending f = some frag ∧
      frag.isEmpty = false ∧
      conjugateVerb (.godan v) f = some (v.stem ++ frag) := by
  obtain ⟨s, e, he⟩ := v
  rcases mem_godanEndings_cases he with rfl | rfl | rfl | rfl | rfl | rfl | rfl | rfl | rfl <;>
    rcases mem_conjugationForms_cases hf with
      rfl | rfl | rfl | rfl | rfl | rfl | rfl | rfl | rfl | rfl | rfl | rfl <;>
    first
      | exact absurd rfl hne
      | exact ⟨_, rfl, rfl, rfl⟩

/-- Witness for C1 at the 話す lexeme and the polite form. -/
theorem godan_conjugation_matches_table_witness :
    ∃ frag, godanConjugationMap "す" "ます形" = some frag ∧
      frag.isEmpty = false ∧
      conjugateVerb (.godan ⟨"話", "す", by decide⟩) "ます形" = some ("話" ++ frag) :=
  godan_conjugation_matches_table ⟨"話", "す", by decide⟩ "ます形" (by decide) (by decide)

/-- C2: for every Ichidan verb, polite and negative return the bare stem, te
and past append て and た, the five collapsed forms (potential, passive,
causative, conditional, hypothetical) all return stem + られ, volitional
appends よう, and imperative appends ろ. -/
theorem ichidan_conjugation_rules (v : IchidanVerb) :
    conjugateVerb (.ichidan v) "ます形" = some v.stem ∧
    conjugateVerb (.ichidan v) "ない形" = some v.stem ∧
    conjugateVerb (.ichidan v) "て形" = some (v.stem ++ "て") ∧
    conjugateVerb (.ichidan v) "た形" = some (v.stem ++ "た") ∧
    conjugateVerb (.ichidan v) "可能形" = some (v.stem ++ "られ") ∧
    conjugateVerb (.ichidan v) "受身形" = some (v.stem ++ "られ") ∧
    conjugateVerb (.ichidan v) "使役形" = some (v.stem ++ "られ") ∧
    conjugateVerb (.ichidan v) "条件形" = some (v.stem ++ "られ") ∧
    conjugateVerb (.ichidan v) "仮定形" = some (v.stem ++ "られ") ∧
    conjugateVerb (.ichidan v) "意向形" = some (v.stem ++ "よう") ∧
    conjugateVerb (.ichidan v) "命令形" = some (v.stem ++ "ろ") := by
  obtain ⟨s, e, he⟩ := v
  exact ⟨rfl, rfl, rfl, rfl, rfl, rfl, rfl, rfl, rfl, rfl, rfl⟩

/-- C3: the irregular i-adjective いい conjugates to いい in the basic form,
よかった in the past, よくない in the negative, and いいです in the polite
form. -/
theorem ii_adjective_conjugation :
    conjugateAdjective (.i iiAdjective) "基本形" = some "いい" ∧
    conjugateAdjective (.i iiAdjective) "過去形" = some "よかった" ∧
    conjugateAdjective (.i iiAdjective) "否定形" = some "よくない" ∧
    conjugateAdjective (.i iiAdjective) "丁寧形" = some "いいです" :=
  ⟨rfl, rfl, rfl, rfl⟩

/-- C4: every irregular verb conjugates every form of the enumeration to the
fixed literal of its per-lexeme table (no stem or ending is involved: the
lexeme carries none); in particular する and 来る have imperatives しろ and
来い. -/
theorem irregular_conjugation_fixed_literals :
    (∀ (v : IrregularVerb) (f : String), f ∈ conjugationForms →
      ∃ lit, irregularConjugationMap v.dictionary f = some lit ∧
        conjugateVerb (.irregular v) f = some lit) ∧
    conjugateVerb (.irregular suruVerb) "命令形" = some "しろ" ∧
    conjugateVerb (.irregular kuruKanjiVerb) "命令形" = some "来い" := by
  refine ⟨?_, rfl, rfl⟩
  rintro ⟨d, hd⟩ f hf
  rcases mem_irregularDictionaries_cases hd with rfl | rfl | rfl <;>
    rcases mem_conjugationForms_cases hf with
      rfl | rfl | rfl | rfl | rfl | rfl | rfl | rfl | rfl | rfl | rfl | rfl <;>
    exact ⟨_, rfl, rfl⟩

/-- Witness for C4 at する and the imperative form. -/
theorem irregular_conjugation_fixed_literals_witness :
    ∃ lit, irregularConjugationMap suruVerb.dictionary "命令形" = some lit ∧
      conjugateVerb (.irregular suruVerb) "命令形" = some lit :=
  irregular_conjugation_fixed_literals.1 suruVerb "命令形" (by decide)

/-- C5: the dictionary form of every Godan and every Ichidan verb is exactly
stem ++ ending, and the Godan rule table holds no dictionary-form cell at any
of the nine endings (the dictionary form is not table-derived). -/
theorem dictionary_form_is_stem_plus_ending :
    (∀ v : GodanVerb, conjugateVerb (.godan v) "辞書形" = some (v.stem ++ v.ending)) ∧
    (∀ v : IchidanVerb, conjugateVerb (.ichidan v) "辞書形" = some (v.stem ++ v.ending)) ∧
    (∀ e ∈ godanEndings, godanConjugationMap e "辞書形" = none) := by
  refine ⟨fun v => rfl, fun v => rfl, ?_⟩
  intro e he
  rcases mem_godanEndings_cases he with rfl | rfl | rfl | rfl | rfl | rfl | rfl | rfl | rfl <;>
    rfl

/-- Witness for C5 at the ending す. -/
theorem dictionary_form_is_stem_plus_ending_witness :
    godanConjugationMap "す" "辞書形" = none :=
  dictionary_form_is_stem_plus_ending.2.2 "す" (by decide)

/-- Mapping a function over an option does not change whether it is
populated. -/
lemma isSome_map_stem {α β : Type} (g : α → β) (o : Option α) :
    (o.map g).isSome = o.isSome := by
  cases o <;> rfl

/-- A populated regular i-adjective cell exists only at the four declared
adjective forms. -/
lemma mem_of_isSome_getIAdjectiveConjugation {f : String}
    (h : (getIAdjectiveConjugation f).isSome = true) :
    f ∈ adjectiveConjugationForms := by
  unfold getIAdjectiveConjugation at h
  split_ifs at h with h1 h2 h3 h4
  · simp [adjectiveConjugationForms, h1]
  · simp [adjectiveConjugationForms, h2]
  · simp [adjectiveConjugationForms, h3]
  · simp [adjectiveConjugationForms, h4]
  · simp at h

/-- A populated irregular i-adjective cell exists only at the four declared
adjective forms or at て形. -/
lemma mem_of_isSome_getIrregularAdjectiveConjugation {stem f : String}
    (h : (getIrregularAdjectiveConjugation stem f).isSome = true) :
    f ∈ adjectiveConjugationForms ∨ f = "て形" := by
  unfold getIrregularAdjectiveConjugation at h
  split_ifs at h with h1 h2 h3 h4 h5
  · exact Or.inl (by simp [adjectiveConjugationForms, h2])
  · exact Or.inl (by simp [adjectiveConjugationForms, h3])
  · exact Or.inr h4
  · exact Or.inl (by simp [adjectiveConjugationForms, h5])
  · exact Or.inl (mem_of_isSome_getIAdjectiveConjugation h)
  · simp at h

/-- C6: the declared verb and adjective form enumerations are disjoint; every
verb form other than て形 applied to any adjective misses (no string is
produced), every adjective form applied to any verb misses, and whenever the
adjective engine does produce a string the requested form is one of the four
declared adjective forms or the additional て形. -/
theorem form_enumerations_disjoint_and_category_errors :
    (∀ f ∈ adjectiveConjugationForms, conjugationForms.contains f = false) ∧
    (∀ (a : Adjective) (f : String), f ∈ conjugationForms → f ≠ "て形" →
      conjugateAdjective a f = none) ∧
    (∀ (v : Verb) (f : String), f ∈ adjectiveConjugationForms →
      conjugateVerb v f = none) ∧
    (∀ (a : Adjective) (f : String), (conjugateAdjective a f).isSome = true →
      f ∈ adjectiveConjugationForms ∨ f = "て形") := by
  refine ⟨by decide, ?_, ?_, ?_⟩
  · intro a f hf hne
    rcases a with ⟨stem, ending, hi, irr⟩ | ⟨stem⟩
    · cases irr <;>
        rcases mem_conjugationForms_cases hf with
          rfl | rfl | rfl | rfl | rfl | rfl | rfl | rfl | rfl | rfl | rfl | rfl <;>
        first
          | exact absurd rfl hne
          | simp [conjugateAdjective, getIrregularAdjectiveConjugation,
              getIAdjectiveConjugation]
    · rcases mem_conjugationForms_cases hf with
        rfl | rfl | rfl | rfl | rfl | rfl | rfl | rfl | rfl | rfl | rfl | rfl <;>
      first
        | exact absurd rfl hne
        | rfl
  · intro v f hf
    rcases v with ⟨⟨s, e, he⟩⟩ | ⟨⟨s, e, he⟩⟩ | ⟨⟨d, hd⟩⟩
    · rcases mem_godanEndings_cases he with
        rfl | rfl | rfl | rfl | rfl | rfl | rfl | rfl | rfl <;>
      rcases mem_adjectiveConjugationForms_cases hf with rfl | rfl | rfl | rfl <;>
      rfl
    · rcases mem_adjectiveConjugationForms_cases hf with rfl | rfl | rfl | rfl <;> rfl
    · rcases mem_irregularDictionaries_cases hd with rfl | rfl | rfl <;>
      rcases mem_adjectiveConjugationForms_cases hf with rfl | rfl | rfl | rfl <;>
      rfl
  · intro a f h
    rcases a with ⟨stem, ending, hi, irr⟩ | ⟨stem⟩
    · by_cases h1 : f = "基本形"
      · exact Or.inl (by simp [adjectiveConjugationForms, h1])
      · cases irr
        · simp only [conjugateAdjective, Bool.false_eq_true, if_false,
            if_neg h1, isSome_map_stem] at h
          exact Or.inl (mem_of_isSome_getIAdjectiveConjugation h)
        · simp only [conjugateAdjective, if_true, if_neg h1] at h
          exact mem_of_isSome_getIrregularAdjectiveConjugation h
    · simp only [conjugateAdjective] at h
      split_ifs at h with h1 h2 h3 h4 h5
      · exact Or.inl (by simp [adjectiveConjugationForms, h1])
      · exact Or.inl (by simp [adjectiveConjugationForms, h2])
      · exact Or.inl (by simp [adjectiveConjugationForms, h3])
      · exact Or.inl (by simp [adjectiveConjugationForms, h4])
      · exact Or.inr h5
      · simp at h

/-- Witness for C6: the verb polite form ます形 on the adjective いい misses,
the adjective basic form 基本形 on the verb する misses, and the successful
conjugation of いい in the past form lands inside the permitted form set. -/
theorem form_enumerations_disjoint_and_category_errors_witness :
    conjugateAdjective (.i iiAdjective) "ます形" = none ∧
    conjugateVerb (.irregular suruVerb) "基本形" = none ∧
    ("過去形" ∈ adjectiveConjugationForms ∨ "過去形" = "て形") :=
  ⟨form_enumerations_disjoint_and_category_errors.2.1 (.i iiAdjective) "ます形"
      (by decide) (by decide),
    form_enumerations_disjoint_and_category_errors.2.2.1 (.irregular suruVerb)
      "基本形" (by decide),
    form_enumerations_disjoint_and_category_errors.2.2.2 (.i iiAdjective)
      "過去形" (by decide)⟩

/-- C7: the ending x is outside the closed nine-member Godan ending set, so
the construction of a Godan verb 買x fails with the invalid-lexeme error and
every constructed Godan verb carries an ending inside the set (conjugation is
never reached with an out-of-domain ending). -/
theorem godan_bad_ending_rejected :
    mkGodanVerb "買" "x" = Except.error LexemeError.invalidLexeme ∧
    godanEndings.contains "x" = false ∧
    (∀ v : GodanVerb, godanEndings.contains v.ending = true) := by
  refine ⟨rfl, by decide, ?_⟩
  intro v
  obtain ⟨s, e, he⟩ := v
  rcases mem_godanEndings_cases he with
    rfl | rfl | rfl | rfl | rfl | rfl | rfl | rfl | rfl <;> rfl

/-- C8: particle attachment and phrase connection are total pure
concatenations, and the end-to-end scenario composes 来い + よ into 来いよ,
いい + よ into いいよ, and connects them into いいよ、来いよ. -/
theorem phrase_composition_pure_concatenation :
    (∀ p x : String, phraseWithParticle p x = p ++ x) ∧
    (∀ p1 p2 : String, connectedPhrases p1 p2 = p1 ++ "、" ++ p2) ∧
    conjugateVerb (.irregular kuruKanjiVerb) "命令形" = some "来い" ∧
    phraseWithParticle "来い" "よ" = "来いよ" ∧
    conjugateAdjective (.i iiAdjective) "基本形" = some "いい" ∧
    phraseWithParticle "いい" "よ" = "いいよ" ∧
    connectedPhrases "いいよ" "来いよ" = "いいよ、来いよ" :=
  ⟨fun p x => rfl, fun p1 p2 => rfl, rfl, by decide, rfl, by decide, by decide⟩

/-- C9: every verb of every class conjugates the conditional form 条件形 and
the hypothetical form 仮定形 to the identical string. -/
theorem conditional_eq_hypothetical (v : Verb) :
    ∃ r, conjugateVerb v "条件形" = some r ∧ conjugateVerb v "仮定形" = some r := by
  rcases v with ⟨⟨s, e, he⟩⟩ | ⟨⟨s, e, he⟩⟩ | ⟨⟨d, hd⟩⟩
  · rcases mem_godanEndings_cases he with
      rfl | rfl | rfl | rfl | rfl | rfl | rfl | rfl | rfl <;> exact ⟨_, rfl, rfl⟩
  · exact ⟨s ++ "られ", rfl, rfl⟩
  · rcases mem_irregularDictionaries_cases hd with rfl | rfl | rfl <;>
      exact ⟨_, rfl, rfl⟩

/-- C10: くる is a legal third dictionary key distinct from 来る, with the
sample fully-kana surface forms き, こ, こい and きて, and at every form of
the enumeration its table cell is populated and differs from the 来る cell. -/
theorem kana_kuru_distinct_lexeme :
    irregularDictionaries.contains "くる" = true ∧
    (kuruKanaVerb.dictionary == kuruKanjiVerb.dictionary) = false ∧
    conjugateVerb (.irregular kuruKanaVerb) "ます形" = some "き" ∧
    conjugateVerb (.irregular kuruKanaVerb) "ない形" = some "こ" ∧
    conjugateVerb (.irregular kuruKanaVerb) "命令形" = some "こい" ∧
    conjugateVerb (.irregular kuruKanaVerb) "て形" = some "きて" ∧
    (∀ f ∈ conjugationForms,
      (irregularConjugationMap "くる" f).isSome = true ∧
      (irregularConjugationMap "くる" f == irregularConjugationMap "来る" f) = false) := by
  refine ⟨by decide, by decide, rfl, rfl, rfl, rfl, ?_⟩
  intro f hf
  rcases mem_conjugationForms_cases hf with
    rfl | rfl | rfl | rfl | rfl | rfl | rfl | rfl | rfl | rfl | rfl | rfl <;>
  exact ⟨rfl, by decide⟩

/-- Witness for C10 at the imperative form. -/
theorem kana_kuru_distinct_lexeme_witness :
    (irregularConjugationMap "くる" "命令形").isSome = true ∧
    (irregularConjugationMap "くる" "命令形" ==
      irregularConjugationMap "来る" "命令形") = false :=
  kana_kuru_distinct_lexeme.2.2.2.2.2.2 "命令形" (by decide)

end TypedJapanese
